import Mathlib

/- Shallow embedding of gamma-tool.c (Gnome-gamma-tool).

   Strings and machine integers are modelled exactly (Nat/Int; no overflow is
   reachable at the sizes involved).  The C float values that reach the
   percentage computation are modelled as exact rationals; comments mark the
   places where the concrete inputs used in theorems make the rational and
   IEEE-float evaluations agree.  The pow()-based ramp synthesis is modelled
   over the reals with rpow.  Calls into colord/GLib are modelled as oracle
   outcomes recorded in an event trace. -/

/- #define OUR_PREFIX "gamma-tool-" (renamed here). -/
def OUR_TAG : String := "gamma-tool-"

def N_SAMPLES : Nat := 256

def TIMEOUT_SECONDS : Int := 4

/- GLib's G_TIME_SPAN_SECOND: one second in microseconds. -/
def G_TIME_SPAN_SECOND : Int := 1000000

/-- C cast (int) applied to an exact rational: truncation toward zero. -/
def truncToInt (q : ℚ) : Int := if 0 ≤ q then Int.floor q else -Int.floor (-q)

def digitChar (d : Nat) : Char := Char.ofNat (48 + d)

/-- Decimal digits of n, most significant first, built with explicit fuel so
    that it reduces in the kernel; fuel n+1 always suffices. -/
def natDecAux : Nat → Nat → List Char → List Char
  | 0, _, acc => acc
  | f+1, n, acc =>
    if n < 10 then digitChar n :: acc
    else natDecAux f (n / 10) (digitChar (n % 10) :: acc)

def natDecList (n : Nat) : List Char := natDecAux (n+1) n []

/-- printf decimal rendering of a natural number. -/
def natDec (n : Nat) : String := String.mk (natDecList n)

/-- printf %d rendering of an integer. -/
def intDec (t : Int) : String := if t < 0 then "-" ++ natDec t.natAbs else natDec t.natAbs

/-- printf %03d: decimal rendering zero-padded to width 3, the sign counted
    inside the width (glibc behaviour); values needing more digits print in
    full. -/
def sprint03 (n : Int) : String :=
  if n < 0 then
    "-" ++ String.mk (List.replicate (2 - (natDecList n.natAbs).length) '0') ++ natDec n.natAbs
  else
    String.mk (List.replicate (3 - (natDecList n.natAbs).length) '0') ++ natDec n.natAbs

/-- g_str_has_prefix. -/
def hasPref (s pre : String) : Bool := pre.data.isPrefixOf s.data

def lastComp : List Char → List Char → List Char
  | [], acc => acc.reverse
  | c :: cs, acc => if c = '/' then lastComp cs [] else lastComp cs (c :: acc)

/-- g_path_get_basename: the last path component, trailing slashes stripped;
    "." for the empty string, "/" for all-slash strings. -/
def pathBasename (s : String) : String :=
  if s.data.isEmpty then "." else
  let t := (s.data.reverse.dropWhile (fun c => c = '/')).reverse
  if t.isEmpty then "/" else String.mk (lastComp t [])

/-- The gamma percentage as computed in handle_apply_mode:
    (int)(gamma * 100.0f), on the exact-rational model of the float. -/
def applyPercent (g : ℚ) : Int := truncToInt (g * 100)

/-- g_strdup_printf("%sg%03d%03d%03dt%d-%s.icc", OUR_PREFIX, r, g, b, t, uuid). -/
def encodeBasename (r g b t : Int) (token : String) : String :=
  OUR_TAG ++ "g" ++ sprint03 r ++ sprint03 g ++ sprint03 b ++ "t" ++ intDec t
    ++ "-" ++ token ++ ".icc"

/-- The new profile basename built in handle_apply_mode from the parsed
    arguments (lines 356-361 of the source). -/
def applyBasename (gamma : Fin 3 → ℚ) (t : Int) (token : String) : String :=
  encodeBasename (applyPercent (gamma 0)) (applyPercent (gamma 1))
    (applyPercent (gamma 2)) t token

/-- C isspace in the C locale. -/
def cIsSpace (c : Char) : Bool :=
  c = ' ' || c = '\t' || c = '\n' || c = '\r' || c = Char.ofNat 11 || c = Char.ofNat 12

/-- Consume at most w decimal digits, accumulating their value and count. -/
def takeDigits : Nat → List Char → Nat → Nat → Nat × Nat × List Char
  | 0, cs, acc, cnt => (acc, cnt, cs)
  | _+1, [], acc, cnt => (acc, cnt, [])
  | w+1, c :: cs, acc, cnt =>
    if c.isDigit then takeDigits w cs (acc * 10 + (c.toNat - 48)) (cnt + 1)
    else (acc, cnt, c :: cs)

/-- Consume decimal digits without a width limit. -/
def takeDigitsAll : List Char → Nat → Nat → Nat × Nat × List Char
  | [], acc, cnt => (acc, cnt, [])
  | c :: cs, acc, cnt =>
    if c.isDigit then takeDigitsAll cs (acc * 10 + (c.toNat - 48)) (cnt + 1)
    else (acc, cnt, c :: cs)

/-- scanf %Nd: skip C whitespace, optional sign (counted inside the width),
    then digits; a matching failure if no digit is converted. -/
def scanIntBody (w : Nat) : List Char → Option (Int × List Char)
  | [] => none
  | c :: rest =>
    if c = '-' then
      let td := takeDigits (w - 1) rest 0 0
      if td.2.1 = 0 then none else some (-(td.1 : Int), td.2.2)
    else if c = '+' then
      let td := takeDigits (w - 1) rest 0 0
      if td.2.1 = 0 then none else some ((td.1 : Int), td.2.2)
    else
      let td := takeDigits w (c :: rest) 0 0
      if td.2.1 = 0 then none else some ((td.1 : Int), td.2.2)

def scanIntW (w : Nat) (cs0 : List Char) : Option (Int × List Char) :=
  scanIntBody w (cs0.dropWhile cIsSpace)

def scanIntAllBody : List Char → Option (Int × List Char)
  | [] => none
  | c :: rest =>
    if c = '-' then
      let td := takeDigitsAll rest 0 0
      if td.2.1 = 0 then none else some (-(td.1 : Int), td.2.2)
    else if c = '+' then
      let td := takeDigitsAll rest 0 0
      if td.2.1 = 0 then none else some ((td.1 : Int), td.2.2)
    else
      let td := takeDigitsAll (c :: rest) 0 0
      if td.2.1 = 0 then none else some ((td.1 : Int), td.2.2)

/-- scanf %d: as scanIntW but without a width limit. -/
def scanIntAll (cs0 : List Char) : Option (Int × List Char) :=
  scanIntAllBody (cs0.dropWhile cIsSpace)

/-- scanf literal (non-whitespace) characters: each must match exactly. -/
def scanLit : List Char → List Char → Option (List Char)
  | [], cs => some cs
  | _ :: _, [] => none
  | l :: ls, c :: cs => if c = l then scanLit ls cs else none

/-- sscanf(basename, "gamma-tool-g%3d%3d%3dt%d-", &r, &g, &b, &temp): some
    iff all four conversions succeed (items == 4); the trailing literal comes
    after the last conversion, so it cannot lower the item count. -/
def scanName (s : String) : Option (Int × Int × Int × Int) := do
  let cs0 ← scanLit ("gamma-tool-g").data s.data
  let (r, cs1) ← scanIntW 3 cs0
  let (g, cs2) ← scanIntW 3 cs1
  let (b, cs3) ← scanIntW 3 cs2
  let cs4 ← scanLit ['t'] cs3
  let (t, _) ← scanIntAll cs4
  pure (r, g, b, t)

inductive InfoResult where
  | parsed (r g b t : Int)
  | unparseable
  | notOwned
  deriving DecidableEq, Repr

/-- The classification handle_info_mode performs on a profile basename:
    prefix check with g_str_has_prefix, then the positional sscanf. -/
def decodeName (name : String) : InfoResult :=
  if hasPref name OUR_TAG then
    match scanName name with
    | some (r, g, b, t) => InfoResult.parsed r g b t
    | none => InfoResult.unparseable
  else InfoResult.notOwned

/-- The scanning phase of g_ascii_strtod on a plain decimal literal:
    optional whitespace and sign, integer digits, optional fraction digits.
    Sign flag, the two digit-group values and their digit counts. -/
structure StrtodParts where
  neg : Bool
  ip : Nat
  ipCnt : Nat
  fp : Nat
  fpCnt : Nat
  deriving DecidableEq, Repr

def strtodScan (s : String) : StrtodParts :=
  let cs0 := s.data.dropWhile cIsSpace
  let neg : Bool := cs0.take 1 = ['-']
  let cs1 := if cs0.take 1 = ['-'] ∨ cs0.take 1 = ['+'] then cs0.drop 1 else cs0
  let ipr := takeDigitsAll cs1 0 0
  let fpr := if ipr.2.2.take 1 = ['.'] then takeDigitsAll (ipr.2.2.drop 1) 0 0 else (0, 0, [])
  ⟨neg, ipr.1, ipr.2.1, fpr.1, fpr.2.1⟩

/-- g_ascii_strtod restricted to plain decimal literals; the inputs the
    claims exercise are all of this form.  No conversion yields 0, as strtod
    specifies. -/
def strtodQ (s : String) : ℚ :=
  let p := strtodScan s
  if p.ipCnt = 0 ∧ p.fpCnt = 0 then 0
  else (if p.neg then -1 else 1) * ((p.ip : ℚ) + (p.fp : ℚ) / 10 ^ p.fpCnt)

/-- atoi: optional whitespace and sign, then leading digits. -/
def atoiZ (s : String) : Int :=
  let cs := s.data.dropWhile cIsSpace
  match cs with
  | '-' :: r => -(((takeDigitsAll r 0 0).1 : Int))
  | '+' :: r => (((takeDigitsAll r 0 0).1 : Int))
  | _ => (((takeDigitsAll cs 0 0).1 : Int))

structure AppArgs where
  gamma : Fin 3 → ℚ
  temperature : Int
  remove_profile : Bool
  info_mode : Bool

/-- The flag-scanning loop of parse_arguments (lines 143-165): walks argv,
    recording -r and -i, the gamma string from -g (separate or = form), and
    the temperature from -t (separate or = form) via atoi. -/
def parseLoop : List String → String → AppArgs → String × AppArgs
  | [], gs, a => (gs, a)
  | arg :: rest, gs, a =>
    if arg = "-r" then parseLoop rest gs { a with remove_profile := true }
    else if arg = "-i" then parseLoop rest gs { a with info_mode := true }
    else if hasPref arg ("-g") then
      if arg = "-g" then
        match rest with
        | v :: rest2 => parseLoop rest2 v a
        | [] => (gs, a)
      else if hasPref arg ("-g=") then parseLoop rest (String.mk (arg.data.drop 3)) a
      else parseLoop rest gs a
    else if hasPref arg ("-t") then
      if arg = "-t" then
        match rest with
        | v :: rest2 => parseLoop rest2 gs { a with temperature := atoiZ v }
        | [] => (gs, a)
      else if hasPref arg ("-t=") then
        parseLoop rest gs { a with temperature := atoiZ (String.mk (arg.data.drop 3)) }
      else parseLoop rest gs a
    else parseLoop rest gs a

def splitColon : List Char → List Char → List (List Char)
  | [], acc => [acc.reverse]
  | c :: cs, acc =>
    if c = ':' then acc.reverse :: splitColon cs [] else splitColon cs (c :: acc)

def joinColon : List (List Char) → List Char
  | [] => []
  | [x] => x
  | x :: xs => x ++ ':' :: joinColon xs

/-- g_strsplit(s, ":", 3): at most 3 tokens, the last keeping the unsplit
    remainder; the empty string yields no tokens. -/
def strsplit3 (s : String) : List String :=
  if s = "" then [] else
  match splitColon s.data [] with
  | p1 :: p2 :: p3 :: more => [String.mk p1, String.mk p2, String.mk (joinColon (p3 :: more))]
  | parts => parts.map String.mk

/-- Lines 168-176: one token broadcasts to all three channels; exactly three
    tokens set the channels separately; anything else leaves the previous
    (default) gamma untouched. -/
def gammaOfSplit (gs : String) (old : Fin 3 → ℚ) : Fin 3 → ℚ :=
  match strsplit3 gs with
  | [p0] => fun _ => strtodQ p0
  | [p0, p1, p2] =>
    fun i => if i = 0 then strtodQ p0 else if i = 1 then strtodQ p1 else strtodQ p2
  | _ => old

/-- parse_arguments; none models the usage-message exit(1) taken when
    argc < 2.  Note there is no validation of the gamma value anywhere. -/
def parse_arguments (argv : List String) : Option AppArgs :=
  let init : AppArgs :=
    { gamma := fun _ => 1, temperature := 6500, remove_profile := false, info_mode := false }
  let p := parseLoop (argv.drop 1) ("1.0") init
  let a1 : AppArgs := { p.2 with gamma := gammaOfSplit p.1 p.2.gamma }
  if argv.length < 2 then none else some a1

structure CdColorRGB where
  R : ℝ
  G : ℝ
  B : ℝ

/-- GLib CLAMP(x, low, high) = ((x) > (high)) ? (high) : (((x) < (low)) ? (low) : (x)). -/
noncomputable def cCLAMP (x low high : ℝ) : ℝ :=
  if high < x then high else if x < low then low else x

/-- One entry of the VCGT table: step = i / (N_SAMPLES - 1), and each channel
    is CLAMP(whitepoint * pow(step, 1/gamma), 0, 1). -/
noncomputable def vcgtSample (gamma : Fin 3 → ℝ) (tc : CdColorRGB) (i : Nat) : CdColorRGB :=
  let step : ℝ := (i : ℝ) / ((N_SAMPLES : ℝ) - 1)
  { R := cCLAMP (tc.R * step ^ ((1 : ℝ) / gamma 0)) 0 1,
    G := cCLAMP (tc.G * step ^ ((1 : ℝ) / gamma 1)) 0 1,
    B := cCLAMP (tc.B * step ^ ((1 : ℝ) / gamma 2)) 0 1 }

/-- generate_vcgt: the 256-sample ramp.  tc is the whitepoint produced by the
    external cd_color_get_blackbody_rgb_full for the requested temperature,
    treated as a black box and therefore taken as a parameter. -/
noncomputable def generate_vcgt (gamma : Fin 3 → ℝ) (tc : CdColorRGB) : List CdColorRGB :=
  (List.range N_SAMPLES).map (vcgtSample gamma tc)

/- Event trace of the external calls the tool performs. -/
inductive Ev where
  | msg (s : String)
  | warn (s : String)
  | setDesc
  | addMeta
  | setVcgt
  | saveFile (path : String)
  | findProfile (path : String)
  | yieldCtl
  | sleepUs (n : Nat)
  | connectProfile
  | addProfile
  | makeDefault
  | detachProfile
  | deleteFile (path : String)
  | reportParsed (r g b t : Int)
  deriving DecidableEq, Repr

/-- Oracle for one handle_apply_mode run: the outcome each external call
    would have, plus the monotonic-clock readings clk n seen at the n-th
    poll-loop condition check.  clk_passes records the physical fact that the
    monotonic clock eventually passes the deadline, which is what terminates
    the C loop. -/
structure ApplyEnv where
  profileFilename : Option String
  profileId : String
  loadIccOk : Bool
  setVcgtOk : Bool
  saveOk : Bool
  uuid : String
  userDataDir : String
  startTime : Int
  clk : Nat → Int
  findOk : Nat → Bool
  connectNewOk : Bool
  addOk : Bool
  defaultOk : Bool
  detachOldOk : Bool
  deleteOldOk : Bool
  clk_passes : ∃ n, startTime + TIMEOUT_SECONDS * G_TIME_SPAN_SECOND ≤ clk n

def ApplyEnv.deadline (e : ApplyEnv) : Int :=
  e.startTime + TIMEOUT_SECONDS * G_TIME_SPAN_SECOND

def ApplyEnv.stopsAt (e : ApplyEnv) (n : Nat) : Prop :=
  e.deadline ≤ e.clk n ∨ e.findOk n = true

instance (e : ApplyEnv) : DecidablePred e.stopsAt := fun _ => by
  unfold ApplyEnv.stopsAt; infer_instance

def ApplyEnv.stopsEx (e : ApplyEnv) : ∃ n, e.stopsAt n :=
  e.clk_passes.imp (fun _ h => Or.inl h)

/-- Index of the first loop iteration at which the while-loop exits: either
    the clock has reached the deadline (checked first) or the find succeeds. -/
def ApplyEnv.pollIdx (e : ApplyEnv) : Nat := Nat.find e.stopsEx

/-- Whether the registration wait succeeded: the loop stopped with the clock
    still before the deadline, hence because the find returned a profile. -/
def ApplyEnv.found (e : ApplyEnv) : Bool := decide (e.clk e.pollIdx < e.deadline)

def currentName (fn : Option String) (pid : String) : String :=
  match fn with
  | some f => f
  | none => pid

/-- is_our_profile: filename present and its basename carries the prefix. -/
def isOurName (fn : Option String) : Bool :=
  match fn with
  | none => false
  | some f => hasPref (pathBasename f) OUR_TAG

def ApplyEnv.oldFile (e : ApplyEnv) : String := e.profileFilename.getD ""

/-- g_build_filename(g_get_user_data_dir(), "icc", NULL) then the basename. -/
def newPath (e : ApplyEnv) (a : AppArgs) : String :=
  e.userDataDir ++ "/icc/" ++ applyBasename a.gamma a.temperature e.uuid

/-- Events of the registration-wait loop: each unsuccessful iteration polls,
    yields to the main context and sleeps 10ms; a successful final iteration
    only polls. -/
def pollPart (e : ApplyEnv) (path : String) : List Ev :=
  ((List.range e.pollIdx).map
    (fun _ => [Ev.findProfile path, Ev.yieldCtl, Ev.sleepUs 10000])).flatten
  ++ (if e.found then [Ev.findProfile path] else [])

/-- Lines 386-399: connect to the found profile, then add it to the device
    and make it the default (failures of the latter two only warn); on a
    connect failure or a timeout, warn. -/
def postPoll (e : ApplyEnv) (path : String) : List Ev :=
  if e.found then
    if e.connectNewOk then
      [Ev.connectProfile, Ev.msg ("New profile is " ++ path), Ev.addProfile]
      ++ (if e.addOk then [] else [Ev.warn ("Failed to add new profile to device.")])
      ++ [Ev.makeDefault]
      ++ (if e.defaultOk then [] else [Ev.warn ("Failed to make new profile default.")])
    else [Ev.connectProfile, Ev.warn ("Could not connect to new profile")]
  else [Ev.warn ("Timed out waiting for colord to detect new profile: " ++ path)]

/-- Lines 402-414: run iff the old profile was ours AND new_profile is
    non-NULL, i.e. the save succeeded and the poll found the new profile —
    regardless of whether connect/add/make-default succeeded. -/
def cleanupPart (e : ApplyEnv) : List Ev :=
  if isOurName e.profileFilename && e.saveOk && e.found then
    [Ev.msg ("Removing old profile..."), Ev.detachProfile]
    ++ (if e.detachOldOk then
          [Ev.msg ("Deleting file " ++ e.oldFile), Ev.deleteFile e.oldFile]
          ++ (if e.deleteOldOk then [] else
                [Ev.warn ("Could not delete old profile file: " ++ e.oldFile)])
        else [Ev.warn ("Could not remove old profile from device")])
  else []

/-- handle_apply_mode as an event trace over the oracle. -/
def applyTrace (e : ApplyEnv) (a : AppArgs) : List Ev :=
  [Ev.msg ("Current profile is " ++ currentName e.profileFilename e.profileId)]
  ++ (if e.loadIccOk = false then [Ev.warn ("Could not get ICC data from base profile")]
      else
        [Ev.setDesc, Ev.addMeta, Ev.setVcgt]
        ++ (if e.setVcgtOk then [] else [Ev.warn ("Failed to set VCGT")])
        ++ [Ev.saveFile (newPath e a)]
        ++ (if e.saveOk = false then
              [Ev.warn ("Could not save new profile to " ++ newPath e a)]
            else pollPart e (newPath e a) ++ postPoll e (newPath e a))
        ++ cleanupPart e)

/-- Oracle for one handle_remove_mode run. -/
structure RemoveEnv where
  profileFilename : Option String
  profileId : String
  detachOk : Bool
  deleteOk : Bool

/-- handle_remove_mode as an event trace (lines 278-309). -/
def removeTrace (r : RemoveEnv) : List Ev :=
  [Ev.msg ("Current profile is " ++ currentName r.profileFilename r.profileId)]
  ++ (if isOurName r.profileFilename then
        [Ev.msg ("Removing profile from device..."), Ev.detachProfile]
        ++ (if r.detachOk then
              [Ev.msg ("Deleting file " ++ r.profileFilename.getD ""),
               Ev.deleteFile (r.profileFilename.getD "")]
              ++ (if r.deleteOk then [] else
                    [Ev.warn ("Could not delete profile file: " ++ r.profileFilename.getD "")])
            else [Ev.warn ("Could not remove profile from device")])
      else [Ev.msg ("Current profile was not created by this tool. Not removing.")])

/-- handle_info_mode as an event trace (lines 243-266). -/
def infoTrace (fn : Option String) : List Ev :=
  match fn with
  | none => [Ev.msg ("Current profile has no filename.")]
  | some f =>
    match decodeName (pathBasename f) with
    | InfoResult.parsed r g b t => [Ev.reportParsed r g b t]
    | InfoResult.unparseable =>
      [Ev.msg ("Could not parse parameters from profile name: " ++ pathBasename f)]
    | InfoResult.notOwned =>
      [Ev.msg ("Current profile is not a gamma-tool profile: " ++ f)]

/-- Oracle for one device in the main loop. -/
structure DeviceEnv where
  id : String
  connectDevOk : Bool
  isDisplay : Bool
  hasProfiles : Bool
  srgbFindOk : Bool
  srgbConnectOk : Bool
  srgbAddOk : Bool
  srgbDefaultOk : Bool
  connectBaseOk : Bool
  rm : RemoveEnv
  ap : ApplyEnv

/-- create_and_set_sRGB_profile: find, connect, add, make default; the first
    failure warns and yields NULL. -/
def srgbTrace (d : DeviceEnv) : List Ev :=
  [Ev.findProfile ("sRGB.icc")]
  ++ (if d.srgbFindOk = false then [Ev.warn ("Failed to find sRGB.icc profile")]
      else [Ev.connectProfile]
        ++ (if d.srgbConnectOk = false then [Ev.warn ("Could not connect to sRGB profile")]
            else [Ev.addProfile]
              ++ (if d.srgbAddOk = false then [Ev.warn ("Failed to add sRGB profile")]
                  else [Ev.makeDefault]
                    ++ (if d.srgbDefaultOk = false then
                          [Ev.warn ("Failed to make sRGB profile default")]
                        else []))))

def srgbSuccess (d : DeviceEnv) : Bool :=
  d.srgbFindOk && d.srgbConnectOk && d.srgbAddOk && d.srgbDefaultOk

/-- Connect to the resolved base profile, then dispatch on the mode
    (info first, then remove, else apply), as in main lines 94-108. -/
def baseConn (a : AppArgs) (d : DeviceEnv) : List Ev :=
  [Ev.connectProfile]
  ++ (if d.connectBaseOk = false then [Ev.warn ("Could not connect to base profile")]
      else if a.info_mode then infoTrace d.ap.profileFilename
      else if a.remove_profile then removeTrace d.rm
      else applyTrace d.ap a)

/-- One iteration of the main device loop (lines 69-112). -/
def processDevice (a : AppArgs) (d : DeviceEnv) : List Ev :=
  [Ev.msg ("device: " ++ d.id)]
  ++ (if d.hasProfiles then baseConn a d
      else [Ev.msg ("No default profile, using sRGB")] ++ srgbTrace d
        ++ (if srgbSuccess d then baseConn a d
            else [Ev.warn ("Could not set sRGB profile for " ++ d.id ++ ". Skipping.")]))

/-- Oracle for a whole run of main. -/
structure MainEnv where
  connectOk : Bool
  enumerateOk : Bool
  devices : List DeviceEnv

/-- The devices get_display_devices keeps: those that connect and are of
    kind DISPLAY. -/
def keptDevices (m : MainEnv) : List DeviceEnv :=
  m.devices.filter (fun d => d.connectDevOk && d.isDisplay)

/-- get_display_devices (lines 200-232): on an enumeration error, g_critical
    and return NULL — which main cannot tell apart from an empty list. -/
def get_display_devices (m : MainEnv) : List Ev × List DeviceEnv :=
  if m.enumerateOk = false then ([Ev.warn ("Failed to get devices")], [])
  else
    ((m.devices.map (fun d =>
        if d.connectDevOk = false then [Ev.warn ("Could not connect to device " ++ d.id)]
        else [])).flatten,
     keptDevices m)

/-- main as an event trace plus exit code. -/
def mainRun (argv : List String) (m : MainEnv) : List Ev × Int :=
  match parse_arguments argv with
  | none => ([], 1)
  | some a =>
    if m.connectOk = false then ([Ev.warn ("Failed to connect to colord")], 1)
    else
      let gd := get_display_devices m
      if gd.2.isEmpty then (gd.1 ++ [Ev.msg ("No display devices found.")], 0)
      else (gd.1 ++ (gd.2.map (processDevice a)).flatten, 0)

/-- Value of a digit string under left-to-right decimal accumulation, the
    accumulation scanf-style conversion performs. -/
def digitsVal (a : Nat) (ds : List Char) : Nat :=
  ds.foldl (fun x c => x * 10 + (c.toNat - 48)) a

/-- The character content of a %03d field for a non-negative value. -/
def pad3 (n : Nat) : List Char :=
  List.replicate (3 - (natDecList n).length) '0' ++ natDecList n

/- Concrete oracles used by witnesses and counterexamples. -/

def oldPathEx : String := "/home/user/.local/share/icc/gamma-tool-g100100100t6500-old.icc"

/-- An apply run whose base profile is tool-owned, whose save succeeds and
    whose registration wait finds the new profile at the first poll, but
    where connecting to the found profile fails, so the bind/activate step
    never runs. -/
def applyEnvFound : ApplyEnv where
  profileFilename := some oldPathEx
  profileId := "icc-old"
  loadIccOk := true
  setVcgtOk := true
  saveOk := true
  uuid := "u1"
  userDataDir := "/home/user/.local/share"
  startTime := 0
  clk := fun n => (n : Int)
  findOk := fun _ => true
  connectNewOk := false
  addOk := false
  defaultOk := false
  detachOldOk := true
  deleteOldOk := true
  clk_passes := ⟨4000000, by norm_num [TIMEOUT_SECONDS, G_TIME_SPAN_SECOND]⟩

/-- An apply run whose registration wait times out: the very first clock
    reading is already past the deadline and the find never succeeds. -/
def applyEnvTimeout : ApplyEnv where
  profileFilename := some oldPathEx
  profileId := "icc-old"
  loadIccOk := true
  setVcgtOk := true
  saveOk := true
  uuid := "u2"
  userDataDir := "/home/user/.local/share"
  startTime := 0
  clk := fun _ => 99999999
  findOk := fun _ => false
  connectNewOk := true
  addOk := true
  defaultOk := true
  detachOldOk := true
  deleteOldOk := true
  clk_passes := ⟨0, by norm_num [TIMEOUT_SECONDS, G_TIME_SPAN_SECOND]⟩

def argsEx : AppArgs where
  gamma := fun _ => 1
  temperature := 6500
  remove_profile := false
  info_mode := false

def argsZero : AppArgs where
  gamma := fun _ => 0
  temperature := 6500
  remove_profile := false
  info_mode := false

def argsInfo : AppArgs where
  gamma := fun _ => strtodQ ("1.0")
  temperature := 6500
  remove_profile := false
  info_mode := true

def removeEnvNotOurs : RemoveEnv where
  profileFilename := none
  profileId := "icc-x"
  detachOk := true
  deleteOk := true

def removeEnvDetachFail : RemoveEnv where
  profileFilename := some oldPathEx
  profileId := "icc-old"
  detachOk := false
  deleteOk := true

def mainEnvEnumFail : MainEnv where
  connectOk := true
  enumerateOk := false
  devices := []

def mainEnvConnFail : MainEnv where
  connectOk := false
  enumerateOk := true
  devices := []

/- ------------------------------------------------------------------ -/
/- Theorems.                                                           -/
/- ------------------------------------------------------------------ -/

theorem digitChar_isDigit (d : Nat) (h : d < 10) : (digitChar d).isDigit = true := by
  interval_cases d <;> decide

theorem digitChar_val (d : Nat) (h : d < 10) : (digitChar d).toNat - 48 = d := by
  interval_cases d <;> decide

theorem natDecAux_acc (f : Nat) : ∀ n acc, natDecAux f n acc = natDecAux f n [] ++ acc := by
  induction f with
  | zero => intro n acc; simp [natDecAux]
  | succ f ih =>
    intro n acc
    by_cases h : n < 10
    · simp [natDecAux, h]
    · simp only [natDecAux, if_neg h]
      rw [ih (n / 10) (digitChar (n % 10) :: acc), ih (n / 10) [digitChar (n % 10)]]
      simp

theorem natDecAux_fuel (f : Nat) : ∀ g n, n < f → n < g → natDecAux f n [] = natDecAux g n [] := by
  induction f with
  | zero => intro g n h; omega
  | succ f ih =>
    intro g n hf hg
    obtain ⟨g1, rfl⟩ : ∃ g1, g = g1 + 1 := ⟨g - 1, by omega⟩
    by_cases h : n < 10
    · simp [natDecAux, h]
    · have hdiv : n / 10 < n := Nat.div_lt_self (by omega) (by omega)
      simp only [natDecAux, if_neg h]
      rw [natDecAux_acc f, natDecAux_acc g1]
      rw [ih g1 (n / 10) (by omega) (by omega)]

theorem natDecList_lt10 (n : Nat) (h : n < 10) : natDecList n = [digitChar n] := by
  simp [natDecList, natDecAux, h]

theorem natDecList_ge10 (n : Nat) (h : 10 ≤ n) :
    natDecList n = natDecList (n / 10) ++ [digitChar (n % 10)] := by
  have h1 : ¬ n < 10 := by omega
  have hdiv : n / 10 < n := Nat.div_lt_self (by omega) (by omega)
  have e1 : natDecList n = natDecAux n (n / 10) [digitChar (n % 10)] := by
    rw [natDecList]
    conv_lhs => rw [natDecAux]
    rw [if_neg h1]
  rw [e1, natDecAux_acc, natDecAux_fuel n (n / 10 + 1) (n / 10) (by omega) (by omega)]
  rfl

theorem natDecList_all_digits (n : Nat) : ∀ c ∈ natDecList n, c.isDigit = true := by
  induction n using Nat.strong_induction_on with
  | _ n ih =>
    by_cases h : n < 10
    · rw [natDecList_lt10 n h]
      intro c hc
      simp at hc
      subst hc
      exact digitChar_isDigit n h
    · rw [natDecList_ge10 n (by omega)]
      intro c hc
      rcases List.mem_append.mp hc with h1 | h1
      · exact ih (n / 10) (Nat.div_lt_self (by omega) (by omega)) c h1
      · simp at h1
        subst h1
        exact digitChar_isDigit _ (Nat.mod_lt _ (by omega))

theorem natDecList_ne_nil (n : Nat) : natDecList n ≠ [] := by
  by_cases h : n < 10
  · rw [natDecList_lt10 n h]; simp
  · rw [natDecList_ge10 n (by omega)]; simp

theorem digitsVal_append (a : Nat) (ds es : List Char) :
    digitsVal a (ds ++ es) = digitsVal (digitsVal a ds) es := by
  simp [digitsVal, List.foldl_append]

theorem digitsVal_natDecList (n : Nat) :
    ∀ a, digitsVal a (natDecList n) = a * 10 ^ (natDecList n).length + n := by
  induction n using Nat.strong_induction_on with
  | _ n ih =>
    intro a
    by_cases h : n < 10
    · rw [natDecList_lt10 n h]
      simp [digitsVal, digitChar_val n h]
    · have hdiv : n / 10 < n := Nat.div_lt_self (by omega) (by omega)
      rw [natDecList_ge10 n (by omega), digitsVal_append, ih (n / 10) hdiv a]
      have hm : (digitChar (n % 10)).toNat - 48 = n % 10 := digitChar_val _ (Nat.mod_lt _ (by omega))
      simp only [digitsVal, List.foldl_cons, List.foldl_nil, hm, List.length_append,
        List.length_cons, List.length_nil]
      calc (a * 10 ^ (natDecList (n / 10)).length + n / 10) * 10 + n % 10
          = a * (10 ^ (natDecList (n / 10)).length * 10) + (10 * (n / 10) + n % 10) := by ring
        _ = a * 10 ^ ((natDecList (n / 10)).length + (0 + 1)) + n := by
            rw [Nat.div_add_mod]; norm_num [pow_succ]

theorem natDecList_length_le (k : Nat) : ∀ n, n < 10 ^ k → 1 ≤ k → (natDecList n).length ≤ k := by
  induction k with
  | zero => intro n _ h; omega
  | succ k ih =>
    intro n hn _
    by_cases h : n < 10
    · rw [natDecList_lt10 n h]; simp
    · rw [natDecList_ge10 n (by omega)]
      simp only [List.length_append, List.length_cons, List.length_nil]
      have hk : 1 ≤ k := by
        by_contra hk0
        have : k = 0 := by omega
        subst this
        simp [pow_succ] at hn
        omega
      have hd : n / 10 < 10 ^ k := by
        rw [Nat.div_lt_iff_lt_mul (by omega)]
        calc n < 10 ^ (k + 1) := hn
          _ = 10 ^ k * 10 := pow_succ 10 k
      have := ih (n / 10) hd hk
      omega

theorem digit_not_space (c : Char) (h : c.isDigit = true) : cIsSpace c = false := by
  by_contra hs
  rw [Bool.not_eq_false] at hs
  simp only [cIsSpace, Bool.or_eq_true, decide_eq_true_eq] at hs
  rcases hs with ((((h1 | h1) | h1) | h1) | h1) | h1 <;> subst h1 <;> exact absurd h (by decide)

theorem digit_ne_dash (c : Char) (h : c.isDigit = true) : ¬ c = '-' := by
  intro e; subst e; exact absurd h (by decide)

theorem digit_ne_plus (c : Char) (h : c.isDigit = true) : ¬ c = '+' := by
  intro e; subst e; exact absurd h (by decide)

theorem dropWhile_digit (c : Char) (cs : List Char) (h : c.isDigit = true) :
    (c :: cs).dropWhile cIsSpace = c :: cs := by
  simp [List.dropWhile_cons, digit_not_space c h]

theorem takeDigits_exact (ds : List Char) :
    ∀ rest a c, (∀ x ∈ ds, x.isDigit = true) →
      takeDigits ds.length (ds ++ rest) a c = (digitsVal a ds, c + ds.length, rest) := by
  induction ds with
  | nil => intro rest a c _; simp [takeDigits, digitsVal]
  | cons d ds ih =>
    intro rest a c hdig
    have hd0 : d.isDigit = true := hdig d (by simp)
    simp only [List.length_cons, List.cons_append, takeDigits, if_pos hd0, List.append_eq]
    rw [ih rest (a * 10 + (d.toNat - 48)) (c + 1) (fun x hx => hdig x (by simp [hx]))]
    simp only [digitsVal, List.foldl_cons, Prod.mk.injEq]
    refine ⟨?_, ?_, ?_⟩ <;> first
      | trivial
      | omega

theorem takeDigitsAll_chunk (ds : List Char) :
    ∀ rest a c, (∀ x ∈ ds, x.isDigit = true) →
      takeDigitsAll (ds ++ rest) a c = takeDigitsAll rest (digitsVal a ds) (c + ds.length) := by
  induction ds with
  | nil => intro rest a c _; simp [digitsVal]
  | cons d ds ih =>
    intro rest a c hdig
    have hd0 : d.isDigit = true := hdig d (by simp)
    simp only [List.cons_append, takeDigitsAll, if_pos hd0, List.append_eq]
    rw [ih rest (a * 10 + (d.toNat - 48)) (c + 1) (fun x hx => hdig x (by simp [hx]))]
    have e1 : digitsVal (a * 10 + (d.toNat - 48)) ds = digitsVal a (d :: ds) := rfl
    have e2 : c + 1 + ds.length = c + (d :: ds).length := by simp; omega
    rw [e1, e2]

theorem takeDigitsAll_stop (rest : List Char) (a c : Nat)
    (h : ∀ x xs, rest = x :: xs → x.isDigit = false) :
    takeDigitsAll rest a c = (a, c, rest) := by
  cases rest with
  | nil => rfl
  | cons r rs => simp [takeDigitsAll, h r rs rfl]

theorem scanIntW_digits (ds : List Char) (rest : List Char)
    (hd : ∀ x ∈ ds, x.isDigit = true) (hne : ds ≠ []) :
    scanIntW ds.length (ds ++ rest) = some ((digitsVal 0 ds : Int), rest) := by
  obtain ⟨d, ds1, rfl⟩ : ∃ d ds1, ds = d :: ds1 := by
    cases ds with
    | nil => exact absurd rfl hne
    | cons d ds1 => exact ⟨d, ds1, rfl⟩
  have hd0 : d.isDigit = true := hd d (by simp)
  unfold scanIntW
  rw [List.cons_append, dropWhile_digit d (ds1 ++ rest) hd0]
  simp only [scanIntBody, if_neg (digit_ne_dash d hd0), if_neg (digit_ne_plus d hd0)]
  rw [← List.cons_append]
  rw [takeDigits_exact (d :: ds1) rest 0 0 hd]
  simp

theorem scanIntAll_intDec (t : Int) (rest : List Char)
    (hrest : ∀ x xs, rest = x :: xs → x.isDigit = false) :
    scanIntAll ((intDec t).data ++ rest) = some (t, rest) := by
  have hlen : (natDecList t.natAbs).length ≠ 0 := by
    intro h0
    exact natDecList_ne_nil t.natAbs (List.length_eq_zero.mp h0)
  by_cases ht : t < 0
  · have hdata : (intDec t).data = '-' :: natDecList t.natAbs := by
      simp [intDec, if_pos ht, natDec]
    rw [hdata, List.cons_append]
    unfold scanIntAll
    rw [show ('-' :: (natDecList t.natAbs ++ rest)).dropWhile cIsSpace
          = '-' :: (natDecList t.natAbs ++ rest) from by
        simp [List.dropWhile_cons, show cIsSpace '-' = false from by decide]]
    simp only [scanIntAllBody, if_pos rfl]
    rw [takeDigitsAll_chunk (natDecList t.natAbs) rest 0 0 (natDecList_all_digits _)]
    rw [takeDigitsAll_stop rest _ _ hrest]
    simp only [Nat.zero_add, hlen, if_neg hlen]
    rw [digitsVal_natDecList]
    simp only [Nat.zero_mul, Nat.zero_add]
    have : -((t.natAbs : Int)) = t := by omega
    rw [this]
    simp
  · have hdata : (intDec t).data = natDecList t.natAbs := by
      simp [intDec, if_neg ht, natDec]
    obtain ⟨d, ds1, hds⟩ : ∃ d ds1, natDecList t.natAbs = d :: ds1 := by
      cases h : natDecList t.natAbs with
      | nil => exact absurd h (natDecList_ne_nil t.natAbs)
      | cons d ds1 => exact ⟨d, ds1, rfl⟩
    have hd0 : d.isDigit = true := natDecList_all_digits t.natAbs d (by rw [hds]; simp)
    rw [hdata]
    unfold scanIntAll
    rw [hds, List.cons_append, dropWhile_digit d (ds1 ++ rest) hd0]
    simp only [scanIntAllBody, if_neg (digit_ne_dash d hd0), if_neg (digit_ne_plus d hd0)]
    rw [← List.cons_append, ← hds]
    rw [takeDigitsAll_chunk (natDecList t.natAbs) rest 0 0 (natDecList_all_digits _)]
    rw [takeDigitsAll_stop rest _ _ hrest]
    simp only [Nat.zero_add, if_neg hlen]
    rw [digitsVal_natDecList]
    simp only [Nat.zero_mul, Nat.zero_add]
    have : ((t.natAbs : Int)) = t := by omega
    rw [this]

theorem scanLit_self (p : List Char) : ∀ rest, scanLit p (p ++ rest) = some rest := by
  induction p with
  | nil => intro rest; rfl
  | cons a p ih => intro rest; simp [scanLit, ih]

theorem isPrefixOf_append_self (p r : List Char) : p.isPrefixOf (p ++ r) = true := by
  induction p with
  | nil => simp [List.isPrefixOf]
  | cons a p ih => simp [List.isPrefixOf, ih]

theorem digitsVal_zero_replicate (k : Nat) : digitsVal 0 (List.replicate k '0') = 0 := by
  induction k with
  | zero => rfl
  | succ k ih =>
    have e : (0 : Nat) * 10 + ('0'.toNat - 48) = 0 := by decide
    calc digitsVal 0 (List.replicate (k+1) '0')
        = digitsVal (0 * 10 + ('0'.toNat - 48)) (List.replicate k '0') := by
          rw [List.replicate_succ]; rfl
      _ = digitsVal 0 (List.replicate k '0') := by rw [e]
      _ = 0 := ih

theorem sprint03_data (r : Int) (h0 : 0 ≤ r) : (sprint03 r).data = pad3 r.natAbs := by
  simp [sprint03, not_lt.mpr h0, pad3, natDec]

theorem pad3_digits (n : Nat) : ∀ x ∈ pad3 n, x.isDigit = true := by
  intro x hx
  rcases List.mem_append.mp hx with h | h
  · rw [List.eq_of_mem_replicate h]; decide
  · exact natDecList_all_digits n x h

theorem pad3_ne_nil (n : Nat) : pad3 n ≠ [] := by
  intro h
  rcases List.append_eq_nil.mp h with ⟨_, h2⟩
  exact natDecList_ne_nil n h2

theorem pad3_length (n : Nat) (h : n ≤ 999) : (pad3 n).length = 3 := by
  have h1 : 1 ≤ (natDecList n).length := by
    have := natDecList_ne_nil n
    cases hh : natDecList n with
    | nil => exact absurd hh this
    | cons a l => simp
  have h3 : (natDecList n).length ≤ 3 := natDecList_length_le 3 n (by omega) (by omega)
  simp [pad3]
  omega

theorem pad3_val (n : Nat) : digitsVal 0 (pad3 n) = n := by
  rw [pad3, digitsVal_append, digitsVal_zero_replicate, digitsVal_natDecList]
  simp

theorem encode_data (r g b t : Int) (token : String)
    (hr0 : 0 ≤ r) (hg0 : 0 ≤ g) (hb0 : 0 ≤ b) :
    (encodeBasename r g b t token).data =
      ("gamma-tool-g").data ++ (pad3 r.natAbs ++ (pad3 g.natAbs ++ (pad3 b.natAbs ++
        ('t' :: ((intDec t).data ++ ('-' :: (token.data ++ (".icc").data))))))) := by
  have hTag : ∀ X : List Char,
      (OUR_TAG).data ++ (("g").data ++ X) = ("gamma-tool-g").data ++ X := by
    intro X
    rw [← List.append_assoc]
    rfl
  simp only [encodeBasename, String.data_append, List.append_assoc,
    sprint03_data r hr0, sprint03_data g hg0, sprint03_data b hb0]
  rw [hTag]
  rfl

theorem scanName_encode (r g b t : Int) (token : String)
    (hr0 : 0 ≤ r) (hr9 : r ≤ 999) (hg0 : 0 ≤ g) (hg9 : g ≤ 999)
    (hb0 : 0 ≤ b) (hb9 : b ≤ 999) :
    scanName (encodeBasename r g b t token) = some (r, g, b, t) := by
  have habs : ∀ x : Int, 0 ≤ x → x ≤ 999 → x.natAbs ≤ 999 := by intro x h1 h2; omega
  have hval : ∀ (x : Int) (Y : List Char), 0 ≤ x → x ≤ 999 →
      scanIntW 3 (pad3 x.natAbs ++ Y) = some (x, Y) := by
    intro x Y h1 h2
    have h3 := pad3_length x.natAbs (habs x h1 h2)
    rw [← h3, scanIntW_digits (pad3 x.natAbs) Y (pad3_digits _) (pad3_ne_nil _)]
    rw [pad3_val]
    have : ((x.natAbs : Nat) : Int) = x := by omega
    rw [this]
  have hrest : ∀ (x : Char) (xs : List Char),
      ('-' :: (token.data ++ (".icc").data)) = x :: xs → x.isDigit = false := by
    intro x xs e
    injection e with e1 _
    rw [← e1]
    decide
  have hlit : ∀ Z : List Char, scanLit ['t'] ('t' :: Z) = some Z := by
    intro Z
    simp [scanLit]
  unfold scanName
  rw [encode_data r g b t token hr0 hg0 hb0]
  rw [scanLit_self]
  simp only [Option.bind_eq_bind, Option.some_bind]
  rw [hval r _ hr0 hr9]
  simp only [Option.some_bind]
  rw [hval g _ hg0 hg9]
  simp only [Option.some_bind]
  rw [hval b _ hb0 hb9]
  simp only [Option.some_bind]
  rw [hlit]
  simp only [Option.some_bind]
  rw [scanIntAll_intDec t (('-' :: (token.data ++ (".icc").data))) hrest]
  simp

theorem hasPref_encode (r g b t : Int) (token : String) :
    hasPref (encodeBasename r g b t token) OUR_TAG = true := by
  unfold hasPref encodeBasename
  simp only [String.data_append, List.append_assoc]
  exact isPrefixOf_append_self _ _

theorem decode_encode (r g b t : Int) (token : String)
    (hr0 : 0 ≤ r) (hr9 : r ≤ 999) (hg0 : 0 ≤ g) (hg9 : g ≤ 999)
    (hb0 : 0 ≤ b) (hb9 : b ≤ 999) :
    decodeName (encodeBasename r g b t token) = InfoResult.parsed r g b t := by
  unfold decodeName
  rw [if_pos (hasPref_encode r g b t token)]
  rw [scanName_encode r g b t token hr0 hr9 hg0 hg9 hb0 hb9]

theorem strtod08 : strtodQ ("0.8") = 4/5 := by
  rw [strtodQ, show strtodScan ("0.8") = ⟨false, 0, 1, 8, 1⟩ from by decide]
  norm_num

theorem strtod10 : strtodQ ("1.0") = 1 := by
  rw [strtodQ, show strtodScan ("1.0") = ⟨false, 1, 1, 0, 1⟩ from by decide]
  norm_num

theorem strtod12 : strtodQ ("1.2") = 6/5 := by
  rw [strtodQ, show strtodScan ("1.2") = ⟨false, 1, 1, 2, 1⟩ from by decide]
  norm_num

theorem strtod0808 : strtodQ ("0.808") = 808/1000 := by
  rw [strtodQ, show strtodScan ("0.808") = ⟨false, 0, 1, 808, 3⟩ from by decide]
  norm_num

theorem strtod0 : strtodQ ("0") = 0 := by
  rw [strtodQ, show strtodScan ("0") = ⟨false, 0, 1, 0, 0⟩ from by decide]
  norm_num

theorem pct45 : applyPercent ((4 : ℚ)/5) = 80 := by
  rw [applyPercent, truncToInt, if_pos (by norm_num)]
  norm_num

theorem pct1 : applyPercent ((1 : ℚ)) = 100 := by
  rw [applyPercent, truncToInt, if_pos (by norm_num)]
  norm_num

theorem pct65 : applyPercent ((6 : ℚ)/5) = 120 := by
  rw [applyPercent, truncToInt, if_pos (by norm_num)]
  norm_num

theorem pct0808 : applyPercent ((808 : ℚ)/1000) = 80 := by
  rw [applyPercent, truncToInt, if_pos (by norm_num)]
  norm_num

theorem pct0 : applyPercent ((0 : ℚ)) = 0 := by
  rw [applyPercent, truncToInt, if_pos (by norm_num)]
  norm_num

/-- Claim C3 (amended): the encoded basename is the constant prefix, then g
    and three 3-digit zero-padded percentages computed by the C cast
    (int)(gamma*100) — truncation (floor for non-negative gamma), NOT
    round(gamma*100) — then t, the temperature as an unpadded decimal
    integer, a dash separator, the random token, and the .icc extension.
    In particular gamma "0.8" with temperature 5500 yields
    gamma-tool-g080080080t5500-(token).icc and gamma "0.8:1.0:1.2" yields the
    field g080100120.  (On these inputs the exact-rational model agrees with
    C float evaluation: 0.8f*100.0f ≈ 80.000001 and 1.2f*100.0f ≈ 120.000005,
    both truncating to the same value as the exact rational.) -/
theorem profile_name_encoding :
    (∀ q : ℚ, 0 ≤ q → applyPercent q = Int.floor (q * 100)) ∧
    (∀ gamma : Fin 3 → ℚ, ∀ t : Int, ∀ token : String,
      applyBasename gamma t token =
        OUR_TAG ++ "g" ++ sprint03 (applyPercent (gamma 0))
          ++ sprint03 (applyPercent (gamma 1)) ++ sprint03 (applyPercent (gamma 2))
          ++ "t" ++ intDec t ++ "-" ++ token ++ ".icc") ∧
    ((parse_arguments ["gamma-tool", "-g", "0.8", "-t", "5500"]).map
        (fun a => applyBasename a.gamma a.temperature "abc")
      = some ("gamma-tool-g080080080t5500-abc.icc")) ∧
    ((parse_arguments ["gamma-tool", "-g", "0.8:1.0:1.2"]).map
        (fun a => applyBasename a.gamma a.temperature "abc")
      = some ("gamma-tool-g080100120t6500-abc.icc")) := by
  refine ⟨?_, ?_, ?_, ?_⟩
  · intro q h
    simp [applyPercent, truncToInt, mul_nonneg h]
  · intro gamma t token
    rfl
  · have hp : parse_arguments ["gamma-tool", "-g", "0.8", "-t", "5500"] =
        some ⟨fun _ => strtodQ ("0.8"), 5500, false, false⟩ := rfl
    rw [hp, Option.map_some']
    have h1 : applyBasename (fun _ => strtodQ ("0.8")) 5500 ("abc")
        = encodeBasename 80 80 80 5500 ("abc") := by
      simp only [applyBasename, strtod08, pct45]
    rw [h1]
    decide
  · have hp : parse_arguments ["gamma-tool", "-g", "0.8:1.0:1.2"] =
        some ⟨fun i => if i = 0 then strtodQ ("0.8") else if i = 1 then strtodQ ("1.0")
                else strtodQ ("1.2"), 6500, false, false⟩ := rfl
    rw [hp, Option.map_some']
    have h1 : applyBasename (fun i : Fin 3 => if i = 0 then strtodQ ("0.8")
          else if i = 1 then strtodQ ("1.0") else strtodQ ("1.2")) 6500 ("abc")
        = encodeBasename 80 100 120 6500 ("abc") := by
      simp [applyBasename, strtod08, strtod10, strtod12, pct45, pct1, pct65]
    rw [h1]
    decide

/-- Claim C3 witness: the truncation characterization at a concrete input. -/
theorem profile_name_encoding_witness :
    (0 : ℚ) ≤ 1/2 ∧ applyPercent ((1 : ℚ)/2) = Int.floor (((1 : ℚ)/2) * 100) :=
  ⟨by norm_num, profile_name_encoding.1 ((1 : ℚ)/2) (by norm_num)⟩

/-- Claim C3 as stated is false: the percentage field is computed by C
    truncation, not rounding.  The gamma input "0.808" parses to 808/1000,
    whose field is 080, while round(0.808*100) = 81 would demand 081.  (This
    is robust under IEEE float32: 0.808f*100.0f ≈ 80.800003, whose (int) cast
    is also 80.) -/
theorem profile_name_round_counterexample :
    strtodQ ("0.808") = 808/1000 ∧
    applyBasename (fun _ => (808 : ℚ)/1000) 6500 ("u")
      = "gamma-tool-g080080080t6500-u.icc" ∧
    round (((808 : ℚ)/1000) * 100) = 81 ∧
    ¬ ("gamma-tool-g080080080t6500-u.icc" = "gamma-tool-g081081081t6500-u.icc") := by
  refine ⟨strtod0808, ?_, by norm_num [round_eq], by decide⟩
  have h1 : applyBasename (fun _ => (808 : ℚ)/1000) 6500 ("u")
      = encodeBasename 80 80 80 6500 ("u") := by
    simp only [applyBasename, pct0808]
  rw [h1]
  decide

/-- Claim C4 (amended): for every gamma triple whose truncated percentages
    (int)(gamma*100) lie in [0, 999], every integer temperature and every
    token, decoding the encoded profile name recovers exactly the three
    encoded percentages and the temperature (the gamma value itself only to
    two decimal digits, by design). -/
theorem decode_encode_roundtrip (gamma : Fin 3 → ℚ) (t : Int) (token : String)
    (h : ∀ c, 0 ≤ applyPercent (gamma c) ∧ applyPercent (gamma c) ≤ 999) :
    decodeName (applyBasename gamma t token) =
      InfoResult.parsed (applyPercent (gamma 0)) (applyPercent (gamma 1))
        (applyPercent (gamma 2)) t :=
  decode_encode (applyPercent (gamma 0)) (applyPercent (gamma 1)) (applyPercent (gamma 2))
    t token (h 0).1 (h 0).2 (h 1).1 (h 1).2 (h 2).1 (h 2).2

/-- Claim C4 witness: the round trip at gamma 0.8, temperature 5500. -/
theorem decode_encode_roundtrip_witness :
    (∀ _ : Fin 3, 0 ≤ applyPercent ((4 : ℚ)/5) ∧ applyPercent ((4 : ℚ)/5) ≤ 999) ∧
    decodeName (applyBasename (fun _ => (4 : ℚ)/5) 5500 ("abc"))
      = InfoResult.parsed 80 80 80 5500 := by
  have hh : ∀ _ : Fin 3, 0 ≤ applyPercent ((4 : ℚ)/5) ∧ applyPercent ((4 : ℚ)/5) ≤ 999 := by
    intro c
    rw [pct45]
    exact ⟨by norm_num, by norm_num⟩
  refine ⟨hh, ?_⟩
  have h2 := decode_encode_roundtrip (fun _ => (4 : ℚ)/5) 5500 ("abc") (fun c => hh c)
  rw [h2]
  simp only [pct45]

/-- Claim C4 as stated is false: with gamma 0.808 the encoded name decodes to
    percentage 80, but round(0.808*100) = 81: the decoder recovers the
    truncated percentage, not the rounded one the claim specifies. -/
theorem decode_encode_round_counterexample :
    decodeName (applyBasename (fun _ => (808 : ℚ)/1000) 6500 ("u"))
      = InfoResult.parsed 80 80 80 6500 ∧
    round (((808 : ℚ)/1000) * 100) = 81 ∧
    ¬ ((80 : Int) = 81) := by
  refine ⟨?_, by norm_num [round_eq], by decide⟩
  have h1 : applyBasename (fun _ => (808 : ℚ)/1000) 6500 ("u")
      = encodeBasename 80 80 80 6500 ("u") := by
    simp only [applyBasename, pct0808]
  rw [h1]
  decide

/-- Claim C5: the decoder classifies every name string into exactly one of
    three outcomes: strings without the constant prefix are "not owned";
    prefixed strings whose positional digit fields fail to scan are "owned
    but unparseable", distinct from "not owned"; and a parsed result arises
    exactly when the positional scan succeeds with those numbers, so a
    corrupted prefixed name is never silently decoded to wrong numbers. -/
theorem decode_classification (s : String) :
    (decodeName s = InfoResult.notOwned ↔ hasPref s OUR_TAG = false) ∧
    (decodeName s = InfoResult.unparseable ↔
      (hasPref s OUR_TAG = true ∧ scanName s = none)) ∧
    (∀ r g b t : Int, decodeName s = InfoResult.parsed r g b t ↔
      (hasPref s OUR_TAG = true ∧ scanName s = some (r, g, b, t))) := by
  unfold decodeName
  cases hp : hasPref s OUR_TAG with
  | false => simp
  | true =>
    cases hsn : scanName s with
    | none => simp
    | some v =>
      obtain ⟨r, g, b, t⟩ := v
      refine ⟨by simp, by simp, ?_⟩
      intro r1 g1 b1 t1
      simp [InfoResult.parsed.injEq]

/-- Claim C5 witness: the three classes at concrete names. -/
theorem decode_classification_witness :
    (decodeName ("foo.icc") = InfoResult.notOwned ↔ hasPref ("foo.icc") OUR_TAG = false) ∧
    (decodeName ("gamma-tool-gX") = InfoResult.unparseable ↔
      (hasPref ("gamma-tool-gX") OUR_TAG = true ∧ scanName ("gamma-tool-gX") = none)) :=
  ⟨(decode_classification ("foo.icc")).1, (decode_classification ("gamma-tool-gX")).2.1⟩

theorem cCLAMP_mem (x : ℝ) : 0 ≤ cCLAMP x 0 1 ∧ cCLAMP x 0 1 ≤ 1 := by
  unfold cCLAMP
  split_ifs <;> constructor <;> linarith

theorem cCLAMP_mono (x y : ℝ) (h : x ≤ y) : cCLAMP x 0 1 ≤ cCLAMP y 0 1 := by
  unfold cCLAMP
  split_ifs <;> linarith

theorem cCLAMP_nonpos (x : ℝ) (h : x ≤ 0) : cCLAMP x 0 1 = 0 := by
  unfold cCLAMP
  split_ifs <;> linarith

theorem clamp_mul_rpow_mono (w e a b : ℝ) (he : 0 < e) (ha : 0 ≤ a) (hab : a ≤ b) :
    cCLAMP (w * a ^ e) 0 1 ≤ cCLAMP (w * b ^ e) 0 1 := by
  rcases le_or_lt 0 w with hw | hw
  · exact cCLAMP_mono _ _
      (mul_le_mul_of_nonneg_left (Real.rpow_le_rpow ha hab (le_of_lt he)) hw)
  · have h1 : w * a ^ e ≤ 0 :=
      mul_nonpos_iff.mpr (Or.inr ⟨le_of_lt hw, Real.rpow_nonneg ha e⟩)
    have h2 : w * b ^ e ≤ 0 :=
      mul_nonpos_iff.mpr (Or.inr ⟨le_of_lt hw, Real.rpow_nonneg (le_trans ha hab) e⟩)
    rw [cCLAMP_nonpos _ h1, cCLAMP_nonpos _ h2]

theorem generate_vcgt_getD (gamma : Fin 3 → ℝ) (tc : CdColorRGB) (i : Nat) (h : i < 256) :
    (generate_vcgt gamma tc).getD i ⟨0, 0, 0⟩ = vcgtSample gamma tc i := by
  unfold generate_vcgt
  simp [List.getD, List.getElem?_map, List.getElem?_range, h, N_SAMPLES]

theorem vcgtSample_eq (gamma : Fin 3 → ℝ) (tc : CdColorRGB) (i : Nat) :
    vcgtSample gamma tc i =
      { R := cCLAMP (tc.R * ((i : ℝ)/255) ^ ((1 : ℝ)/gamma 0)) 0 1,
        G := cCLAMP (tc.G * ((i : ℝ)/255) ^ ((1 : ℝ)/gamma 1)) 0 1,
        B := cCLAMP (tc.B * ((i : ℝ)/255) ^ ((1 : ℝ)/gamma 2)) 0 1 } := by
  unfold vcgtSample
  norm_num [N_SAMPLES]

/-- Claim C2: for every gamma triple with all channels positive and every
    black-body whitepoint tc (the blackbody routine is a black box, so tc is
    universally quantified, covering every temperature), generate_vcgt
    produces exactly 256 samples; sample i's channel c equals
    CLAMP(tc[c] * (i/255)^(1/gamma[c]), 0, 1); every channel value lies in
    [0,1]; and each channel is monotonically non-decreasing in the sample
    index. -/
theorem vcgt_ramp_properties (gamma : Fin 3 → ℝ) (tc : CdColorRGB)
    (hg : ∀ c, 0 < gamma c) :
    (generate_vcgt gamma tc).length = 256 ∧
    (∀ i, i < 256 →
      (generate_vcgt gamma tc).getD i ⟨0, 0, 0⟩ =
        { R := cCLAMP (tc.R * ((i : ℝ)/255) ^ ((1 : ℝ)/gamma 0)) 0 1,
          G := cCLAMP (tc.G * ((i : ℝ)/255) ^ ((1 : ℝ)/gamma 1)) 0 1,
          B := cCLAMP (tc.B * ((i : ℝ)/255) ^ ((1 : ℝ)/gamma 2)) 0 1 }) ∧
    (∀ i, i < 256 →
      (0 ≤ ((generate_vcgt gamma tc).getD i ⟨0, 0, 0⟩).R ∧
        ((generate_vcgt gamma tc).getD i ⟨0, 0, 0⟩).R ≤ 1) ∧
      (0 ≤ ((generate_vcgt gamma tc).getD i ⟨0, 0, 0⟩).G ∧
        ((generate_vcgt gamma tc).getD i ⟨0, 0, 0⟩).G ≤ 1) ∧
      (0 ≤ ((generate_vcgt gamma tc).getD i ⟨0, 0, 0⟩).B ∧
        ((generate_vcgt gamma tc).getD i ⟨0, 0, 0⟩).B ≤ 1)) ∧
    (∀ i j, i ≤ j → j < 256 →
      ((generate_vcgt gamma tc).getD i ⟨0, 0, 0⟩).R ≤
        ((generate_vcgt gamma tc).getD j ⟨0, 0, 0⟩).R ∧
      ((generate_vcgt gamma tc).getD i ⟨0, 0, 0⟩).G ≤
        ((generate_vcgt gamma tc).getD j ⟨0, 0, 0⟩).G ∧
      ((generate_vcgt gamma tc).getD i ⟨0, 0, 0⟩).B ≤
        ((generate_vcgt gamma tc).getD j ⟨0, 0, 0⟩).B) := by
  refine ⟨?_, ?_, ?_, ?_⟩
  · simp [generate_vcgt, N_SAMPLES]
  · intro i hi
    rw [generate_vcgt_getD gamma tc i hi, vcgtSample_eq]
  · intro i hi
    rw [generate_vcgt_getD gamma tc i hi, vcgtSample_eq]
    exact ⟨cCLAMP_mem _, cCLAMP_mem _, cCLAMP_mem _⟩
  · intro i j hij hj
    have hi : i < 256 := lt_of_le_of_lt hij hj
    rw [generate_vcgt_getD gamma tc i hi, generate_vcgt_getD gamma tc j hj,
      vcgtSample_eq, vcgtSample_eq]
    have ha : (0 : ℝ) ≤ (i : ℝ)/255 := by positivity
    have hab : (i : ℝ)/255 ≤ (j : ℝ)/255 :=
      (div_le_div_iff_of_pos_right (by norm_num)).mpr (Nat.cast_le.mpr hij)
    exact ⟨clamp_mul_rpow_mono _ _ _ _ (one_div_pos.mpr (hg 0)) ha hab,
      clamp_mul_rpow_mono _ _ _ _ (one_div_pos.mpr (hg 1)) ha hab,
      clamp_mul_rpow_mono _ _ _ _ (one_div_pos.mpr (hg 2)) ha hab⟩

/-- Claim C2 witness: the ramp properties at neutral gamma and a unit
    whitepoint. -/
theorem vcgt_ramp_properties_witness :
    (∀ _ : Fin 3, (0 : ℝ) < 1) ∧ (generate_vcgt (fun _ => 1) ⟨1, 1, 1⟩).length = 256 :=
  ⟨fun _ => one_pos, (vcgt_ramp_properties (fun _ => 1) ⟨1, 1, 1⟩ (fun _ => one_pos)).1⟩

theorem mem_pollPart (e : ApplyEnv) (p : String) :
    ∀ x ∈ pollPart e p, x = Ev.findProfile p ∨ x = Ev.yieldCtl ∨ x = Ev.sleepUs 10000 := by
  intro x hx
  unfold pollPart at hx
  rcases List.mem_append.mp hx with h | h
  · rcases List.mem_flatten.mp h with ⟨l, hl, hxl⟩
    rcases List.mem_map.mp hl with ⟨n, _, rfl⟩
    simp at hxl
    rcases hxl with h1 | h1 | h1 <;> simp [h1]
  · by_cases hf : e.found = true
    · simp [hf] at h
      simp [h]
    · simp [hf] at h

theorem detach_not_mem_pollPart (e : ApplyEnv) (p : String) :
    Ev.detachProfile ∉ pollPart e p := by
  intro h
  rcases mem_pollPart e p _ h with h1 | h1 | h1 <;> simp at h1

theorem deleteFile_not_mem_pollPart (e : ApplyEnv) (p : String) (f : String) :
    Ev.deleteFile f ∉ pollPart e p := by
  intro h
  rcases mem_pollPart e p _ h with h1 | h1 | h1 <;> simp at h1

theorem addProfile_not_mem_pollPart (e : ApplyEnv) (p : String) :
    Ev.addProfile ∉ pollPart e p := by
  intro h
  rcases mem_pollPart e p _ h with h1 | h1 | h1 <;> simp at h1

theorem makeDefault_not_mem_pollPart (e : ApplyEnv) (p : String) :
    Ev.makeDefault ∉ pollPart e p := by
  intro h
  rcases mem_pollPart e p _ h with h1 | h1 | h1 <;> simp at h1

theorem connectProfile_not_mem_pollPart (e : ApplyEnv) (p : String) :
    Ev.connectProfile ∉ pollPart e p := by
  intro h
  rcases mem_pollPart e p _ h with h1 | h1 | h1 <;> simp at h1

theorem detach_not_mem_postPoll (e : ApplyEnv) (p : String) :
    Ev.detachProfile ∉ postPoll e p := by
  unfold postPoll
  split_ifs <;> simp

theorem deleteFile_not_mem_postPoll (e : ApplyEnv) (p : String) (f : String) :
    Ev.deleteFile f ∉ postPoll e p := by
  unfold postPoll
  split_ifs <;> simp

theorem detach_mem_cleanupPart (e : ApplyEnv) :
    Ev.detachProfile ∈ cleanupPart e ↔
      (isOurName e.profileFilename && e.saveOk && e.found) = true := by
  unfold cleanupPart
  cases hc : (isOurName e.profileFilename && e.saveOk && e.found)
  · simp [hc]
  · cases hd : e.detachOldOk <;> cases hdel : e.deleteOldOk <;> simp [hc, hd, hdel]

theorem deleteFile_mem_cleanupPart (e : ApplyEnv) (f : String) :
    Ev.deleteFile f ∈ cleanupPart e ↔
      ((isOurName e.profileFilename && e.saveOk && e.found) = true ∧
        e.detachOldOk = true ∧ f = e.oldFile) := by
  unfold cleanupPart
  cases hc : (isOurName e.profileFilename && e.saveOk && e.found)
  · simp [hc]
  · cases hd : e.detachOldOk <;> cases hdel : e.deleteOldOk <;> simp [hc, hd, hdel]

/-- Claim C1 (amended): in apply mode, the old tool-owned profile is detached
    exactly when ICC load and save succeeded and the registration wait found
    the new profile — regardless of whether the subsequent connect, bind and
    make-default calls (step 7) succeeded — and its file deletion additionally
    requires only that the detach call succeeded.  On a registration timeout
    (found = false) nothing is detached or deleted. -/
theorem apply_cleanup_iff (e : ApplyEnv) (a : AppArgs) :
    (Ev.detachProfile ∈ applyTrace e a ↔
      (isOurName e.profileFilename = true ∧ e.loadIccOk = true ∧ e.saveOk = true ∧
        e.found = true)) ∧
    (∀ f, Ev.deleteFile f ∈ applyTrace e a ↔
      (isOurName e.profileFilename = true ∧ e.loadIccOk = true ∧ e.saveOk = true ∧
        e.found = true ∧ e.detachOldOk = true ∧ f = e.oldFile)) := by
  have hp1 := detach_not_mem_pollPart e (newPath e a)
  have hp2 := fun f => deleteFile_not_mem_pollPart e (newPath e a) f
  have hq1 := detach_not_mem_postPoll e (newPath e a)
  have hq2 := fun f => deleteFile_not_mem_postPoll e (newPath e a) f
  have hc1 := detach_mem_cleanupPart e
  have hc2 := fun f => deleteFile_mem_cleanupPart e f
  constructor
  · cases hL : e.loadIccOk <;> cases hS : e.saveOk <;> cases hV : e.setVcgtOk <;>
      cases hF : e.found <;>
      simp [applyTrace, hL, hS, hV, hF, hp1, hq1, hc1, hc2]
  · intro f
    cases hL : e.loadIccOk <;> cases hS : e.saveOk <;> cases hV : e.setVcgtOk <;>
      cases hF : e.found <;>
      simp [applyTrace, hL, hS, hV, hF, hp2, hq2, hc1, hc2]

theorem applyEnvFound_pollIdx : applyEnvFound.pollIdx = 0 := by
  unfold ApplyEnv.pollIdx
  rw [Nat.find_eq_zero]
  exact Or.inr rfl

theorem applyEnvFound_found : applyEnvFound.found = true := by
  unfold ApplyEnv.found
  rw [applyEnvFound_pollIdx]
  decide

theorem applyEnvTimeout_pollIdx : applyEnvTimeout.pollIdx = 0 := by
  unfold ApplyEnv.pollIdx
  rw [Nat.find_eq_zero]
  exact Or.inl (by decide)

theorem applyEnvTimeout_found : applyEnvTimeout.found = false := by
  unfold ApplyEnv.found
  rw [applyEnvTimeout_pollIdx]
  decide

theorem applyEnvFound_trace :
    applyTrace applyEnvFound argsEx =
      [Ev.msg ("Current profile is " ++ oldPathEx),
       Ev.setDesc, Ev.addMeta, Ev.setVcgt,
       Ev.saveFile (newPath applyEnvFound argsEx),
       Ev.findProfile (newPath applyEnvFound argsEx),
       Ev.connectProfile,
       Ev.warn ("Could not connect to new profile"),
       Ev.msg ("Removing old profile..."),
       Ev.detachProfile,
       Ev.msg ("Deleting file " ++ oldPathEx),
       Ev.deleteFile oldPathEx] := by
  have hidx := applyEnvFound_pollIdx
  have hfound := applyEnvFound_found
  have hour : isOurName (some oldPathEx) = true := by decide
  have hL : applyEnvFound.loadIccOk = true := rfl
  have hS : applyEnvFound.saveOk = true := rfl
  have hV : applyEnvFound.setVcgtOk = true := rfl
  have hC : applyEnvFound.connectNewOk = false := rfl
  have hD : applyEnvFound.detachOldOk = true := rfl
  have hDel : applyEnvFound.deleteOldOk = true := rfl
  have hFn : applyEnvFound.profileFilename = some oldPathEx := rfl
  simp [applyTrace, pollPart, postPoll, cleanupPart, hidx, hfound, hour, hL, hS, hV,
    hC, hD, hDel, hFn, currentName, ApplyEnv.oldFile]

/-- Claim C1 as stated is false until amended: with the registration wait
    succeeding but the connect to the found profile failing, step 7
    (bind/activate) never completes — no profile is added or made default —
    yet the old tool-owned profile is detached and its backing file deleted.
    A replacement was never confirmed active. -/
theorem apply_cleanup_without_activation :
    Ev.deleteFile oldPathEx ∈ applyTrace applyEnvFound argsEx ∧
    Ev.detachProfile ∈ applyTrace applyEnvFound argsEx ∧
    Ev.makeDefault ∉ applyTrace applyEnvFound argsEx ∧
    Ev.addProfile ∉ applyTrace applyEnvFound argsEx := by
  refine ⟨?_, ?_, ?_, ?_⟩ <;> rw [applyEnvFound_trace] <;> simp

theorem count_flatten_const (k : Nat) (blk : List Ev) (x : Ev) :
    ((List.replicate k blk).flatten).count x = k * blk.count x := by
  induction k with
  | zero => simp
  | succ k ih =>
    simp [List.replicate_succ, List.count_append, ih]
    ring

/-- Claim C7: the registration wait polls only while the monotonic clock is
    before startTime + TIMEOUT_SECONDS seconds; every non-final iteration
    yields control and sleeps 10ms (counts of yields and sleeps equal the
    number of unsuccessful polls); and if the whole wait elapses without
    detection, the handler reports the timeout and performs no detach, no
    file deletion, no profile add, no make-default and no profile connect:
    the previously active profile is left in place. -/
theorem registration_wait_bounded (e : ApplyEnv) (a : AppArgs)
    (hl : e.loadIccOk = true) (hs : e.saveOk = true) :
    (e.deadline = e.startTime + TIMEOUT_SECONDS * G_TIME_SPAN_SECOND) ∧
    (∀ n, n < e.pollIdx → (e.clk n < e.deadline ∧ e.findOk n = false)) ∧
    (e.found = true → e.clk e.pollIdx < e.deadline) ∧
    ((pollPart e (newPath e a)).count (Ev.sleepUs 10000) = e.pollIdx ∧
      (pollPart e (newPath e a)).count Ev.yieldCtl = e.pollIdx ∧
      (pollPart e (newPath e a)).count (Ev.findProfile (newPath e a)) =
        e.pollIdx + (if e.found = true then 1 else 0)) ∧
    (e.found = false →
      Ev.warn ("Timed out waiting for colord to detect new profile: " ++ newPath e a)
          ∈ applyTrace e a ∧
      Ev.detachProfile ∉ applyTrace e a ∧
      (∀ f, Ev.deleteFile f ∉ applyTrace e a) ∧
      Ev.addProfile ∉ applyTrace e a ∧
      Ev.makeDefault ∉ applyTrace e a ∧
      Ev.connectProfile ∉ applyTrace e a) := by
  refine ⟨rfl, ?_, ?_, ?_, ?_⟩
  · intro n hn
    have hmin := Nat.find_min e.stopsEx hn
    unfold ApplyEnv.stopsAt at hmin
    push_neg at hmin
    exact ⟨hmin.1, by simpa using hmin.2⟩
  · intro hf
    exact of_decide_eq_true hf
  · refine ⟨?_, ?_, ?_⟩ <;>
      unfold pollPart <;>
      cases hf : e.found <;>
      simp [hf, List.count_append, count_flatten_const, List.count_cons]
  · intro hf
    have hTimeoutPost : postPoll e (newPath e a) =
        [Ev.warn ("Timed out waiting for colord to detect new profile: " ++ newPath e a)] := by
      unfold postPoll
      rw [if_neg (by simp [hf])]
    have hCleanup : cleanupPart e = [] := by
      unfold cleanupPart
      rw [if_neg (by simp [hf])]
    have hp1 := detach_not_mem_pollPart e (newPath e a)
    have hp2 := fun f => deleteFile_not_mem_pollPart e (newPath e a) f
    have hp3 := addProfile_not_mem_pollPart e (newPath e a)
    have hp4 := makeDefault_not_mem_pollPart e (newPath e a)
    have hp5 := connectProfile_not_mem_pollPart e (newPath e a)
    cases hV : e.setVcgtOk <;>
      simp [applyTrace, hl, hs, hV, hTimeoutPost, hCleanup, hp1, hp2, hp3, hp4, hp5]

/-- Claim C7 witness: a run whose first clock reading is past the deadline:
    the wait times out at once and the timeout conclusions hold. -/
theorem registration_wait_bounded_witness :
    applyEnvTimeout.loadIccOk = true ∧ applyEnvTimeout.saveOk = true ∧
    applyEnvTimeout.deadline =
      applyEnvTimeout.startTime + TIMEOUT_SECONDS * G_TIME_SPAN_SECOND :=
  ⟨rfl, rfl, (registration_wait_bounded applyEnvTimeout argsEx rfl rfl).1⟩

/-- Claim C9: on a device whose active profile is not tool-owned (no
    filename, or a basename without the canonical prefix), remove mode makes
    zero mutating calls — no detach, no file deletion, no profile add, no
    make-default, no file write — and reports that the profile was not
    created by this tool. -/
theorem remove_mode_non_tool_noop (r : RemoveEnv)
    (h : isOurName r.profileFilename = false) :
    Ev.detachProfile ∉ removeTrace r ∧
    (∀ f, Ev.deleteFile f ∉ removeTrace r) ∧
    Ev.addProfile ∉ removeTrace r ∧
    Ev.makeDefault ∉ removeTrace r ∧
    (∀ p, Ev.saveFile p ∉ removeTrace r) ∧
    Ev.msg ("Current profile was not created by this tool. Not removing.")
        ∈ removeTrace r := by
  simp [removeTrace, h]

/-- Claim C9 witness: a profile with no filename. -/
theorem remove_mode_non_tool_noop_witness :
    isOurName removeEnvNotOurs.profileFilename = false ∧
    Ev.detachProfile ∉ removeTrace removeEnvNotOurs :=
  ⟨rfl, (remove_mode_non_tool_noop removeEnvNotOurs rfl).1⟩

theorem applyTrace_decomp (e : ApplyEnv) (a : AppArgs) (hL : e.loadIccOk = true) :
    applyTrace e a =
      ([Ev.msg ("Current profile is " ++ currentName e.profileFilename e.profileId)]
        ++ ([Ev.setDesc, Ev.addMeta, Ev.setVcgt]
        ++ ((if e.setVcgtOk then [] else [Ev.warn ("Failed to set VCGT")])
        ++ ([Ev.saveFile (newPath e a)]
        ++ (if e.saveOk = false then
              [Ev.warn ("Could not save new profile to " ++ newPath e a)]
            else pollPart e (newPath e a) ++ postPoll e (newPath e a))))))
      ++ cleanupPart e := by
  simp [applyTrace, hL]

/-- Claim C10: in remove mode and in the apply-mode cleanup, the backing file
    is deleted only when the detach from the device succeeded, and the delete
    always comes after the detach in the event order (sublist containment):
    a failed detach leaves the file untouched. -/
theorem delete_only_after_detach (r : RemoveEnv) (e : ApplyEnv) (a : AppArgs) :
    (r.detachOk = false → ∀ f, Ev.deleteFile f ∉ removeTrace r) ∧
    (∀ f, Ev.deleteFile f ∈ removeTrace r →
      List.Sublist [Ev.detachProfile, Ev.deleteFile f] (removeTrace r)) ∧
    (e.detachOldOk = false → ∀ f, Ev.deleteFile f ∉ applyTrace e a) ∧
    (∀ f, Ev.deleteFile f ∈ applyTrace e a →
      List.Sublist [Ev.detachProfile, Ev.deleteFile f] (applyTrace e a)) := by
  refine ⟨?_, ?_, ?_, ?_⟩
  · intro hd f
    cases hOur : isOurName r.profileFilename <;> simp [removeTrace, hOur, hd]
  · intro f hf
    cases hOur : isOurName r.profileFilename
    · simp [removeTrace, hOur] at hf
    · cases hd : r.detachOk
      · simp [removeTrace, hOur, hd] at hf
      · have hfe : f = r.profileFilename.getD "" := by
          cases hdel : r.deleteOk <;> simp [removeTrace, hOur, hd, hdel] at hf <;> exact hf
        subst hfe
        have htr : removeTrace r =
            Ev.msg ("Current profile is " ++ currentName r.profileFilename r.profileId)
              :: Ev.msg ("Removing profile from device...")
              :: Ev.detachProfile
              :: Ev.msg ("Deleting file " ++ r.profileFilename.getD "")
              :: Ev.deleteFile (r.profileFilename.getD "")
              :: (if r.deleteOk then [] else
                    [Ev.warn ("Could not delete profile file: " ++ r.profileFilename.getD "")]) := by
          simp [removeTrace, hOur, hd]
        rw [htr]
        refine List.Sublist.cons _ (List.Sublist.cons _
          (List.Sublist.cons₂ _ (List.Sublist.cons _
            (List.Sublist.cons₂ _ (List.nil_sublist _)))))
  · intro hd f
    cases hL : e.loadIccOk <;> cases hS : e.saveOk <;> cases hV : e.setVcgtOk <;>
      cases hF : e.found <;>
      simp [applyTrace, hL, hS, hV, hF, hd, deleteFile_not_mem_pollPart,
        deleteFile_not_mem_postPoll, deleteFile_mem_cleanupPart]
  · intro f hf
    cases hL : e.loadIccOk
    · simp [applyTrace, hL] at hf
    · have hdec := applyTrace_decomp e a hL
      rw [hdec] at hf ⊢
      have hf2 : Ev.deleteFile f ∈ cleanupPart e := by
        rcases List.mem_append.mp hf with h | h
        · exfalso
          cases hV : e.setVcgtOk <;> cases hS : e.saveOk <;>
            simp [hV, hS, deleteFile_not_mem_pollPart, deleteFile_not_mem_postPoll] at h
        · exact h
      obtain ⟨hc, hd, hfe⟩ := (deleteFile_mem_cleanupPart e f).mp hf2
      subst hfe
      have hcp : cleanupPart e =
          Ev.msg ("Removing old profile...")
            :: Ev.detachProfile
            :: Ev.msg ("Deleting file " ++ e.oldFile)
            :: Ev.deleteFile e.oldFile
            :: (if e.deleteOldOk then [] else
                  [Ev.warn ("Could not delete old profile file: " ++ e.oldFile)]) := by
        simp [cleanupPart, hc, hd]
      have hsub : List.Sublist [Ev.detachProfile, Ev.deleteFile e.oldFile] (cleanupPart e) := by
        rw [hcp]
        refine List.Sublist.cons _ (List.Sublist.cons₂ _
          (List.Sublist.cons _ (List.Sublist.cons₂ _ (List.nil_sublist _))))
      exact hsub.trans (List.sublist_append_right _ _)

/-- Claim C10 witness: a failed detach in remove mode leaves the concrete
    file untouched. -/
theorem delete_only_after_detach_witness :
    removeEnvDetachFail.detachOk = false ∧
    Ev.deleteFile oldPathEx ∉ removeTrace removeEnvDetachFail :=
  ⟨rfl, (delete_only_after_detach removeEnvDetachFail applyEnvTimeout argsEx).1 rfl oldPathEx⟩

/-- Claim C6 states the spec's intent, but the code lacks the check: the
    gamma value 0 passes parse_arguments unrejected (no validation exists
    anywhere in the source), apply mode proceeds to ramp synthesis (the
    set-VCGT step runs), and generate_vcgt still produces a full 256-sample
    ramp after taking the reciprocal of zero.  Nothing rejects the input and
    a ramp is produced, contradicting the claim. -/
theorem gamma_zero_not_rejected :
    (parse_arguments ["gamma-tool", "-g", "0"] =
      some ⟨fun _ => strtodQ ("0"), 6500, false, false⟩) ∧
    strtodQ ("0") = 0 ∧
    (generate_vcgt (fun _ => (0 : ℝ)) ⟨1, 1, 1⟩).length = 256 ∧
    Ev.setVcgt ∈ applyTrace applyEnvFound argsZero := by
  refine ⟨rfl, strtod0, by simp [generate_vcgt, N_SAMPLES], ?_⟩
  have hL : applyEnvFound.loadIccOk = true := rfl
  simp [applyTrace, hL]

/-- Claim C8 (amended): a failed connection to colord aborts the run with
    exit code 1; a failed device enumeration logs a critical message but the
    run exits 0 (get_display_devices returns NULL, which main reports as "no
    display devices"); and with setup successful, the run always exits 0 and
    every connected display device is processed (its per-device header
    appears in the trace) regardless of any per-device failures. -/
theorem main_error_propagation (argv : List String) (m : MainEnv) :
    (parse_arguments argv = none → mainRun argv m = ([], 1)) ∧
    (∀ a, parse_arguments argv = some a → m.connectOk = false →
      (mainRun argv m).2 = 1) ∧
    (∀ a, parse_arguments argv = some a → m.connectOk = true → m.enumerateOk = false →
      ((mainRun argv m).2 = 0 ∧ Ev.warn ("Failed to get devices") ∈ (mainRun argv m).1)) ∧
    (∀ a, parse_arguments argv = some a → m.connectOk = true → m.enumerateOk = true →
      ((mainRun argv m).2 = 0 ∧
        ∀ d ∈ keptDevices m, Ev.msg ("device: " ++ d.id) ∈ (mainRun argv m).1)) := by
  refine ⟨?_, ?_, ?_, ?_⟩
  · intro hp
    simp [mainRun, hp]
  · intro a hp hc
    simp [mainRun, hp, hc]
  · intro a hp hc he
    constructor
    · simp [mainRun, hp, hc, get_display_devices, he]
    · simp [mainRun, hp, hc, get_display_devices, he]
  · intro a hp hc he
    constructor
    · simp only [mainRun, hp]
      rw [if_neg (by simp [hc])]
      split <;> rfl
    · intro d hd
      have hke : ¬ (keptDevices m).isEmpty = true := by
        intro hemp
        rw [List.isEmpty_iff] at hemp
        rw [hemp] at hd
        simp at hd
      simp only [mainRun, hp]
      rw [if_neg (by simp [hc])]
      have hgd : get_display_devices m =
          ((m.devices.map (fun d => if d.connectDevOk = false then
              [Ev.warn ("Could not connect to device " ++ d.id)] else [])).flatten,
            keptDevices m) := by
        simp [get_display_devices, he]
      rw [hgd]
      simp only []
      rw [if_neg hke]
      refine List.mem_append.mpr (Or.inr ?_)
      exact List.mem_flatten.mpr ⟨processDevice a d, List.mem_map_of_mem _ hd,
        by simp [processDevice]⟩

/-- Claim C8 witness: a failed colord connection exits 1. -/
theorem main_error_propagation_witness :
    parse_arguments ["gamma-tool", "-i"] = some argsInfo ∧
    mainEnvConnFail.connectOk = false ∧
    (mainRun ["gamma-tool", "-i"] mainEnvConnFail).2 = 1 :=
  ⟨rfl, rfl, (main_error_propagation ["gamma-tool", "-i"] mainEnvConnFail).2.1 argsInfo rfl rfl⟩

/-- Claim C8 as stated is false on the enumeration half: when device
    enumeration fails, get_display_devices logs a critical message and
    returns NULL, and main prints "No display devices found." and returns
    exit code 0 — not a non-zero code. -/
theorem enumeration_failure_exit_zero :
    (mainRun ["gamma-tool", "-i"] mainEnvEnumFail).2 = 0 ∧
    Ev.warn ("Failed to get devices") ∈ (mainRun ["gamma-tool", "-i"] mainEnvEnumFail).1 ∧
    Ev.msg ("No display devices found.") ∈ (mainRun ["gamma-tool", "-i"] mainEnvEnumFail).1 := by
  have hp : parse_arguments ["gamma-tool", "-i"] = some argsInfo := rfl
  refine ⟨?_, ?_, ?_⟩ <;>
    simp [mainRun, hp, mainEnvEnumFail, get_display_devices, keptDevices]
